import Mathlib

/-!
Shallow embedding of the position & ledger state engine of the
YTXTManualT0Collaboration repository (src/src/position.py and
src/src/ledger_rolling.py).

Modelling conventions:
- Python `float` prices/amounts are modelled as exact rationals (ℚ);
- Python `int` volumes as ℤ (Python integers are unbounded and may be
  negative when callers pass negative values);
- Python dicts as insertion-ordered association lists with
  lookup (`dictGet`) and insert-or-replace (`dictSet`);
- datetime-valued fields (update_time, open_time, close_time,
  record_time) are wall-clock only and carry no logic; they are omitted.
  The timestamp-derived part of a generated position_id is taken as an
  explicit argument.
- In-place mutation of objects becomes explicit state passing: an
  operation on a value returns the updated value (plus the Python
  return value where there is one).
-/

/-- Association-list lookup, modelling Python `dict.get`. -/
def dictGet {α : Type} (k : String) : List (String × α) → Option α
  | [] => none
  | (k', v) :: rest => if k' = k then some v else dictGet k rest

/-- Association-list insert-or-replace, modelling Python `dict[k] = v`
(replaces in place, else appends, preserving insertion order). -/
def dictSet {α : Type} (k : String) (v : α) : List (String × α) → List (String × α)
  | [] => [(k, v)]
  | (k', v') :: rest => if k' = k then (k, v) :: rest else (k', v') :: dictSet k v rest

theorem dictGet_dictSet_self {α : Type} (k : String) (v : α) :
    ∀ d : List (String × α), dictGet k (dictSet k v d) = some v := by
  intro d
  induction d with
  | nil => simp [dictGet, dictSet]
  | cons hd tl ih =>
    obtain ⟨k', v'⟩ := hd
    by_cases h : k' = k
    · simp [dictGet, dictSet, h]
    · simp [dictGet, dictSet, h, ih]

/-- PositionStatus enum from position.py. -/
inductive PositionStatus where
  | ACTIVE
  | FROZEN
  | CLOSED
deriving DecidableEq, Repr

/-- T0 type strings of VirtualPosition ("SELL_FIRST" / "BUY_FIRST"). -/
inductive T0Type where
  | SELL_FIRST
  | BUY_FIRST
deriving DecidableEq, Repr

/-- RealPosition from position.py (datetime field omitted). -/
structure RealPosition where
  stock_code : String
  stock_name : String
  account_id : String
  market_id : String
  total_volume : ℤ
  available_volume : ℤ
  frozen_volume : ℤ
  yesterday_volume : ℤ
  today_volume : ℤ
  cost_price : ℚ
  current_price : ℚ
  status : PositionStatus
deriving DecidableEq, Repr

/-- cost_amount property: total_volume * cost_price. -/
def RealPosition.cost_amount (p : RealPosition) : ℚ :=
  (p.total_volume : ℚ) * p.cost_price

/-- market_value property: total_volume * current_price. -/
def RealPosition.market_value (p : RealPosition) : ℚ :=
  (p.total_volume : ℚ) * p.current_price

/-- profit_loss property: (current_price - cost_price) * total_volume. -/
def RealPosition.profit_loss (p : RealPosition) : ℚ :=
  (p.current_price - p.cost_price) * (p.total_volume : ℚ)

/-- sellable_volume property: 0 when FROZEN, else available_volume. -/
def RealPosition.sellable_volume (p : RealPosition) : ℤ :=
  if p.status = PositionStatus.FROZEN then 0 else p.available_volume

/-- update_price: sets current_price. -/
def RealPosition.update_price (p : RealPosition) (price : ℚ) : RealPosition :=
  { p with current_price := price }

/-- freeze: moves volume from available to frozen when 0 < volume ≤ available.
Returns the Python bool result together with the updated position. -/
def RealPosition.freeze (p : RealPosition) (volume : ℤ) : Bool × RealPosition :=
  if volume ≤ 0 ∨ volume > p.available_volume then (false, p)
  else (true, { p with
    available_volume := p.available_volume - volume,
    frozen_volume := p.frozen_volume + volume })

/-- unfreeze: moves volume from frozen back to available when 0 < volume ≤ frozen. -/
def RealPosition.unfreeze (p : RealPosition) (volume : ℤ) : Bool × RealPosition :=
  if volume ≤ 0 ∨ volume > p.frozen_volume then (false, p)
  else (true, { p with
    frozen_volume := p.frozen_volume - volume,
    available_volume := p.available_volume + volume })

/-- reduce (sell): decrements total and available when 0 < volume ≤ available. -/
def RealPosition.reduce (p : RealPosition) (volume : ℤ) : Bool × RealPosition :=
  if volume ≤ 0 ∨ volume > p.available_volume then (false, p)
  else (true, { p with
    total_volume := p.total_volume - volume,
    available_volume := p.available_volume - volume })

/-- increase (buy): when volume > 0, adds volume to total and today volumes and
re-bases cost_price as the weighted average, guarded by the post-increment
total being positive (as in the source). -/
def RealPosition.increase (p : RealPosition) (volume : ℤ) (price : ℚ) :
    Bool × RealPosition :=
  if volume ≤ 0 then (false, p)
  else
    let old_cost_amount := p.cost_amount
    let new_cost := (volume : ℚ) * price
    let p1 := { p with
      total_volume := p.total_volume + volume,
      today_volume := p.today_volume + volume }
    if p1.total_volume > 0 then
      (true, { p1 with cost_price := (old_cost_amount + new_cost) / (p1.total_volume : ℚ) })
    else
      (true, p1)

/-- VirtualPosition from position.py (datetime fields omitted). -/
structure VirtualPosition where
  stock_code : String
  account_id : String
  position_id : String
  t0_type : T0Type
  open_volume : ℤ
  open_price : ℚ
  closed_volume : ℤ
  close_price : ℚ
  profit_loss : ℚ
  profit_rate : ℚ
  status : PositionStatus
deriving DecidableEq, Repr

/-- Dataclass construction of a VirtualPosition with all defaulted fields, as
done inside the T0 execution entry points. -/
def mkVirtualPosition (position_id stock_code account_id : String) : VirtualPosition :=
  { stock_code := stock_code
    account_id := account_id
    position_id := position_id
    t0_type := T0Type.SELL_FIRST
    open_volume := 0
    open_price := 0
    closed_volume := 0
    close_price := 0
    profit_loss := 0
    profit_rate := 0
    status := PositionStatus.ACTIVE }

/-- remaining_volume property: open_volume - closed_volume. -/
def VirtualPosition.remaining_volume (vp : VirtualPosition) : ℤ :=
  vp.open_volume - vp.closed_volume

/-- is_closed property: remaining_volume ≤ 0. -/
def VirtualPosition.is_closed (vp : VirtualPosition) : Bool :=
  vp.remaining_volume ≤ 0

/-- Models VirtualPosition.open: sets the open leg and status ACTIVE. -/
def open_position (vp : VirtualPosition) (volume : ℤ) (price : ℚ)
    (t0_type : T0Type) : VirtualPosition :=
  { vp with
    open_volume := volume
    open_price := price
    t0_type := t0_type
    status := PositionStatus.ACTIVE }

/-- Models VirtualPosition.close_partial: returns the increment profit and the
updated position; a no-op returning 0.0 unless 0 < volume ≤ remaining_volume. -/
def close_partial (vp : VirtualPosition) (volume : ℤ) (price : ℚ) :
    ℚ × VirtualPosition :=
  if volume ≤ 0 ∨ volume > vp.remaining_volume then (0, vp)
  else
    let profit : ℚ :=
      if vp.t0_type = T0Type.SELL_FIRST then (vp.open_price - price) * (volume : ℚ)
      else (price - vp.open_price) * (volume : ℚ)
    let vp1 := { vp with
      profit_loss := vp.profit_loss + profit
      closed_volume := vp.closed_volume + volume
      close_price := price }
    let vp2 :=
      if vp1.open_volume > 0 then
        { vp1 with profit_rate := vp1.profit_loss / (vp1.open_price * (vp1.open_volume : ℚ)) * 100 }
      else vp1
    let vp3 :=
      if vp2.is_closed then { vp2 with status := PositionStatus.CLOSED } else vp2
    (profit, vp3)

/-- Models VirtualPosition.close_all: close_partial at remaining_volume. -/
def close_all (vp : VirtualPosition) (price : ℚ) : ℚ × VirtualPosition :=
  close_partial vp vp.remaining_volume price

/-- AccountPosition from position.py: one account's real and virtual positions. -/
structure AccountPosition where
  account_id : String
  positions : List (String × RealPosition)
  virtual_positions : List (String × VirtualPosition)
deriving DecidableEq, Repr

/-- AccountPosition.get_position: lookup a real position by stock code. -/
def AccountPosition.get_position (a : AccountPosition) (stock_code : String) :
    Option RealPosition :=
  dictGet stock_code a.positions

/-- PositionManager from position.py: the account registry. -/
structure PositionManager where
  accounts : List (String × AccountPosition)
deriving DecidableEq, Repr

/-- PositionManager.get_position. -/
def get_position (m : PositionManager) (account_id stock_code : String) :
    Option RealPosition :=
  match dictGet account_id m.accounts with
  | none => none
  | some account => AccountPosition.get_position account stock_code

/-- PositionManager.get_sellable_volume. -/
def get_sellable_volume (m : PositionManager) (account_id stock_code : String) : ℤ :=
  match get_position m account_id stock_code with
  | some pos => RealPosition.sellable_volume pos
  | none => 0

/-- PositionManager.execute_t0_sell_first. The timestamp part of the generated
position_id is passed in as pid. Returns the Python return value (Option of
the created VirtualPosition) with the updated manager; on any failure the
manager is returned unchanged. -/
def execute_t0_sell_first (m : PositionManager) (account_id stock_code : String)
    (volume : ℤ) (sell_price buy_price : ℚ) (pid : String) :
    Option VirtualPosition × PositionManager :=
  match dictGet account_id m.accounts with
  | none => (none, m)
  | some account =>
    match dictGet stock_code account.positions with
    | none => (none, m)
    | some position =>
      if volume > RealPosition.sellable_volume position then (none, m)
      else
        let vp0 := mkVirtualPosition
          ("T0_" ++ account_id ++ "_" ++ stock_code ++ "_" ++ pid) stock_code account_id
        let position1 := (RealPosition.reduce position volume).2
        let vp1 := open_position vp0 volume sell_price T0Type.SELL_FIRST
        let vp2 := (close_all vp1 buy_price).2
        let position2 := (RealPosition.increase position1 volume buy_price).2
        let account2 := { account with
          positions := dictSet stock_code position2 account.positions,
          virtual_positions := dictSet vp2.position_id vp2 account.virtual_positions }
        (some vp2, { m with accounts := dictSet account_id account2 m.accounts })

/-- PositionManager.execute_t0_buy_first. Note: the source performs no
sellable-volume check here and never mutates the RealPosition. -/
def execute_t0_buy_first (m : PositionManager) (account_id stock_code : String)
    (volume : ℤ) (buy_price sell_price : ℚ) (pid : String) :
    Option VirtualPosition × PositionManager :=
  match dictGet account_id m.accounts with
  | none => (none, m)
  | some account =>
    match dictGet stock_code account.positions with
    | none => (none, m)
    | some _ =>
      let vp0 := mkVirtualPosition
        ("T0_" ++ account_id ++ "_" ++ stock_code ++ "_" ++ pid) stock_code account_id
      let vp1 := open_position vp0 volume buy_price T0Type.BUY_FIRST
      let vp2 := (close_all vp1 sell_price).2
      let account2 := { account with
        virtual_positions := dictSet vp2.position_id vp2 account.virtual_positions }
      (some vp2, { m with accounts := dictSet account_id account2 m.accounts })

/-- AdjustmentType enum from ledger_rolling.py. -/
inductive AdjustmentType where
  | DIVIDEND
  | RIGHTS_ISSUE
  | BONUS_SHARE
  | SPLIT
  | REVERSE_SPLIT
  | SPECIAL
deriving DecidableEq, Repr

/-- AdjustmentEvent from ledger_rolling.py (record_time omitted). -/
structure AdjustmentEvent where
  trade_date : String
  stock_code : String
  adjustment_type : AdjustmentType
  adjustment_factor : ℚ
  adjustment_amount : ℚ
  adjustment_volume : ℤ
  description : String
deriving DecidableEq, Repr

/-- LedgerRollingState from ledger_rolling.py. -/
structure LedgerRollingState where
  stock_code : String
  stock_name : String
  account_id : String
  previous_ledger : ℚ
  current_ledger : ℚ
  adjustment_factor : ℚ
  adjustment_amount : ℚ
  previous_date : String
  current_date : String
deriving DecidableEq, Repr

/-- One entry of the per-key calculation history recorded by roll (the
redundant human-readable calculation string is omitted). -/
structure CalculationEntry where
  trade_date : String
  previous_ledger : ℚ
  adjustment_factor : ℚ
  adjustment_amount : ℚ
  current_ledger : ℚ
deriving DecidableEq, Repr

/-- LedgerRollingCalculator state: the three internal dicts. -/
structure LedgerRollingCalculator where
  states : List (String × LedgerRollingState)
  adjustment_history : List (String × List AdjustmentEvent)
  calculation_history : List (String × List CalculationEntry)
deriving DecidableEq, Repr

/-- The empty calculator produced by the constructor. -/
def emptyCalculator : LedgerRollingCalculator :=
  { states := [], adjustment_history := [], calculation_history := [] }

/-- The internal state key account_id + "_" + stock_code. -/
def state_key (account_id stock_code : String) : String :=
  account_id ++ "_" ++ stock_code

/-- calculate_adjustment_factor from ledger_rolling.py. -/
def calculate_adjustment_factor (dividend_per_share rights_ratio rights_price
    bonus_ratio split_ratio current_price : ℚ) : ℚ :=
  let _ := dividend_per_share
  let af : ℚ := 1
  let af := if bonus_ratio > 0 then af / (1 + bonus_ratio) else af
  let af :=
    if rights_ratio > 0 ∧ current_price > 0 then
      af * (((current_price + rights_price * rights_ratio) / (1 + rights_ratio)) / current_price)
    else af
  if split_ratio > 0 ∧ split_ratio ≠ 1 then af / split_ratio else af

/-- calculate_adjustment_amount from ledger_rolling.py. -/
def calculate_adjustment_amount (previous_ledger dividend_per_share : ℚ)
    (total_shares : ℤ) (special_adjustment : ℚ) : ℚ :=
  let _ := previous_ledger
  let e1 : ℚ := if dividend_per_share > 0 ∧ total_shares > 0
    then dividend_per_share * (total_shares : ℚ) else 0
  if special_adjustment ≠ 0 then e1 + special_adjustment else e1

/-- The composite adjustment factor: product of the events' factors. -/
def composite_adjustment_factor (events : List AdjustmentEvent) : ℚ :=
  events.foldl (fun acc e => acc * e.adjustment_factor) 1

/-- LedgerRollingCalculator.roll. The Python ValueError on an empty identifier
is modelled as Except.error paired with the calculator unchanged; today stands
for the wall-clock date default used when trade_date is empty. -/
def roll (c : LedgerRollingCalculator) (account_id stock_code stock_name : String)
    (adjustment_factor : Option ℚ) (adjustment_amount : ℚ) (trade_date : String)
    (events : Option (List AdjustmentEvent)) (today : String) :
    Except String LedgerRollingState × LedgerRollingCalculator :=
  if account_id = "" then (Except.error "account_id must not be empty", c)
  else if stock_code = "" then (Except.error "stock_code must not be empty", c)
  else
    let key := state_key account_id stock_code
    let state0 : LedgerRollingState :=
      match dictGet key c.states with
      | some st => st
      | none =>
        { stock_code := stock_code, stock_name := stock_name, account_id := account_id
          previous_ledger := 0, current_ledger := 0
          adjustment_factor := 1, adjustment_amount := 0
          previous_date := "", current_date := "" }
    let prev := if state0.current_ledger ≠ 0 then state0.current_ledger
      else state0.previous_ledger
    let prev_date := state0.current_date
    let cur_date := if trade_date = "" then today else trade_date
    let af : ℚ :=
      match adjustment_factor with
      | some x => x
      | none =>
        match events with
        | some es => if es = [] then 1 else composite_adjustment_factor es
        | none => 1
    let st : LedgerRollingState := { state0 with
      previous_ledger := prev
      previous_date := prev_date
      current_date := cur_date
      adjustment_factor := af
      adjustment_amount := adjustment_amount
      current_ledger := prev * af + adjustment_amount }
    let hist := match dictGet key c.calculation_history with
      | some l => l
      | none => []
    let entry : CalculationEntry :=
      { trade_date := trade_date
        previous_ledger := st.previous_ledger
        adjustment_factor := st.adjustment_factor
        adjustment_amount := st.adjustment_amount
        current_ledger := st.current_ledger }
    (Except.ok st, { c with
      states := dictSet key st c.states
      calculation_history := dictSet key (hist ++ [entry]) c.calculation_history })

/-- LedgerRollingCalculator.get_state. -/
def get_state (c : LedgerRollingCalculator) (account_id stock_code : String) :
    Option LedgerRollingState :=
  dictGet (state_key account_id stock_code) c.states

/-- LedgerRollingCalculator.get_current_ledger. -/
def get_current_ledger (c : LedgerRollingCalculator) (account_id stock_code : String) : ℚ :=
  match get_state c account_id stock_code with
  | some st => st.current_ledger
  | none => 0

/-- LedgerRollingCalculator.initialize_ledger: overwrites the state for the
key with previous = current = the seed value. -/
def initialize_ledger (c : LedgerRollingCalculator)
    (account_id stock_code stock_name : String)
    (initial_ledger : ℚ) (trade_date : String) (today : String) :
    LedgerRollingState × LedgerRollingCalculator :=
  let key := state_key account_id stock_code
  let d := if trade_date = "" then today else trade_date
  let st : LedgerRollingState :=
    { stock_code := stock_code, stock_name := stock_name, account_id := account_id
      previous_ledger := initial_ledger, current_ledger := initial_ledger
      adjustment_factor := 1, adjustment_amount := 0
      previous_date := d, current_date := d }
  (st, { c with states := dictSet key st c.states })

/-- One call against a RealPosition, for reasoning about call sequences. -/
inductive PosOp where
  | freeze (v : ℤ)
  | unfreeze (v : ℤ)
  | reduce (v : ℤ)
  | increase (v : ℤ) (price : ℚ)
  | update_price (price : ℚ)
deriving DecidableEq, Repr

/-- Apply one call to a RealPosition (discarding the bool result). -/
def apply_op (p : RealPosition) : PosOp → RealPosition
  | PosOp.freeze v => (RealPosition.freeze p v).2
  | PosOp.unfreeze v => (RealPosition.unfreeze p v).2
  | PosOp.reduce v => (RealPosition.reduce p v).2
  | PosOp.increase v price => (RealPosition.increase p v price).2
  | PosOp.update_price price => RealPosition.update_price p price

/-- Apply a sequence of calls left to right. -/
def apply_ops (p : RealPosition) (ops : List PosOp) : RealPosition :=
  ops.foldl apply_op p

/-- The volume invariant of the data model: all three volume fields
nonnegative and available + frozen bounded by total. -/
def volume_invariant (p : RealPosition) : Prop :=
  0 ≤ p.available_volume ∧ 0 ≤ p.frozen_volume ∧ 0 ≤ p.total_volume ∧
    p.available_volume + p.frozen_volume ≤ p.total_volume

instance (p : RealPosition) : Decidable (volume_invariant p) := by
  unfold volume_invariant
  infer_instance

theorem volume_invariant_apply_op (p : RealPosition) (op : PosOp)
    (h : volume_invariant p) : volume_invariant (apply_op p op) := by
  obtain ⟨h1, h2, h3, h4⟩ := h
  cases op with
  | freeze v =>
    simp only [apply_op, RealPosition.freeze]
    split
    · exact ⟨h1, h2, h3, h4⟩
    · rename_i hc
      push_neg at hc
      refine ⟨?_, ?_, ?_, ?_⟩ <;> simp <;> omega
  | unfreeze v =>
    simp only [apply_op, RealPosition.unfreeze]
    split
    · exact ⟨h1, h2, h3, h4⟩
    · rename_i hc
      push_neg at hc
      refine ⟨?_, ?_, ?_, ?_⟩ <;> simp <;> omega
  | reduce v =>
    simp only [apply_op, RealPosition.reduce]
    split
    · exact ⟨h1, h2, h3, h4⟩
    · rename_i hc
      push_neg at hc
      refine ⟨?_, ?_, ?_, ?_⟩ <;> simp <;> omega
  | increase v price =>
    simp only [apply_op, RealPosition.increase]
    split
    · exact ⟨h1, h2, h3, h4⟩
    · rename_i hc
      push_neg at hc
      split
      · refine ⟨?_, ?_, ?_, ?_⟩ <;> simp <;> omega
      · refine ⟨?_, ?_, ?_, ?_⟩ <;> simp <;> omega
  | update_price price =>
    exact ⟨h1, h2, h3, h4⟩

/-- C4: for every RealPosition whose volume fields satisfy
available_volume ≥ 0, frozen_volume ≥ 0, total_volume ≥ 0 and
available_volume + frozen_volume ≤ total_volume, every sequence of freeze,
unfreeze, reduce, increase and update_price calls preserves all four
conditions. -/
theorem volume_invariant_preserved (p : RealPosition) (ops : List PosOp)
    (h : volume_invariant p) : volume_invariant (apply_ops p ops) := by
  induction ops generalizing p with
  | nil => exact h
  | cons op rest ih =>
    simp only [apply_ops, List.foldl_cons]
    exact ih (apply_op p op) (volume_invariant_apply_op p op h)

/-- A sample position used in concrete witnesses. -/
def samplePosition : RealPosition :=
  { stock_code := "000001"
    stock_name := "PAB"
    account_id := "TEST001"
    market_id := "SZ"
    total_volume := 1000
    available_volume := 1000
    frozen_volume := 0
    yesterday_volume := 1000
    today_volume := 0
    cost_price := 10
    current_price := 10
    status := PositionStatus.ACTIVE }

/-- Witness for C4: the invariant holds after a concrete sequence of calls
starting from a concrete position satisfying it. -/
theorem volume_invariant_preserved_witness :
    volume_invariant (apply_ops samplePosition
      [PosOp.freeze 200, PosOp.reduce 300, PosOp.increase 100 (21/2),
       PosOp.unfreeze 200, PosOp.update_price 11, PosOp.reduce 5000]) :=
  volume_invariant_preserved samplePosition
    [PosOp.freeze 200, PosOp.reduce 300, PosOp.increase 100 (21/2),
     PosOp.unfreeze 200, PosOp.update_price 11, PosOp.reduce 5000] (by decide)

/-- C8: calculate_adjustment_factor never depends on dividend_per_share; with
only bonus_ratio = 0.3 set it returns 1/1.3 and with only split_ratio = 2.0
set it returns 0.5 (exact rational arithmetic). -/
theorem adjustment_factor_spec :
    (∀ d1 d2 rr rp br sr cp : ℚ,
      calculate_adjustment_factor d1 rr rp br sr cp =
        calculate_adjustment_factor d2 rr rp br sr cp) ∧
    calculate_adjustment_factor 0 0 0 (3/10) 1 0 = 1 / (13/10) ∧
    calculate_adjustment_factor 0 0 0 0 2 0 = 1/2 := by
  refine ⟨fun d1 d2 rr rp br sr cp => rfl, ?_, ?_⟩
  · simp only [calculate_adjustment_factor]
    norm_num
  · simp only [calculate_adjustment_factor]
    norm_num

/-- C9: close_partial with volume ≤ 0 or volume > remaining_volume returns 0.0
and leaves the VirtualPosition unchanged; hence close_all on a position with
remaining_volume = 0 returns 0.0 and is a no-op. -/
theorem close_partial_invalid_noop (vp : VirtualPosition) (v : ℤ) (price : ℚ) :
    ((v ≤ 0 ∨ vp.remaining_volume < v) → close_partial vp v price = (0, vp)) ∧
    (vp.remaining_volume = 0 → close_all vp price = (0, vp)) := by
  constructor
  · intro h
    have h' : v ≤ 0 ∨ v > vp.remaining_volume := by omega
    unfold close_partial
    rw [if_pos h']
  · intro h
    unfold close_all close_partial
    rw [h]
    rw [if_pos (Or.inl le_rfl)]

/-- A sample fully-open virtual position used in concrete witnesses. -/
def sampleVirtualPosition : VirtualPosition :=
  { stock_code := "000001"
    account_id := "TEST001"
    position_id := "T0_TEST001_000001_1"
    t0_type := T0Type.SELL_FIRST
    open_volume := 0
    open_price := 21/2
    closed_volume := 0
    close_price := 0
    profit_loss := 0
    profit_rate := 0
    status := PositionStatus.ACTIVE }

/-- Witness for C9 at a concrete virtual position with remaining_volume 0. -/
theorem close_partial_invalid_noop_witness :
    close_partial sampleVirtualPosition (-5) 10 = (0, sampleVirtualPosition) ∧
    close_all sampleVirtualPosition 10 = (0, sampleVirtualPosition) :=
  ⟨(close_partial_invalid_noop sampleVirtualPosition (-5) 10).1 (by decide),
   (close_partial_invalid_noop sampleVirtualPosition (-5) 10).2 (by decide)⟩

/-- C10: get_sellable_volume returns 0 for an unknown account or an account
with no position in the instrument, and otherwise the position's
sellable_volume (0 when FROZEN, else available_volume). It is a pure total
function of the manager, so it cannot throw or mutate state. -/
theorem get_sellable_volume_spec (m : PositionManager) (a s : String) :
    (dictGet a m.accounts = none → get_sellable_volume m a s = 0) ∧
    (∀ acc : AccountPosition, dictGet a m.accounts = some acc →
      dictGet s acc.positions = none → get_sellable_volume m a s = 0) ∧
    (∀ (acc : AccountPosition) (pos : RealPosition),
      dictGet a m.accounts = some acc → dictGet s acc.positions = some pos →
      get_sellable_volume m a s =
        if pos.status = PositionStatus.FROZEN then 0 else pos.available_volume) := by
  refine ⟨?_, ?_, ?_⟩
  · intro h
    simp [get_sellable_volume, get_position, h]
  · intro acc hacc hpos
    simp [get_sellable_volume, get_position, AccountPosition.get_position, hacc, hpos]
  · intro acc pos hacc hpos
    simp [get_sellable_volume, get_position, AccountPosition.get_position,
      RealPosition.sellable_volume, hacc, hpos]

/-- A sample manager with one account and one frozen-status position. -/
def sampleManagerFrozen : PositionManager :=
  { accounts := [("TEST001",
      { account_id := "TEST001"
        positions := [("000001", { samplePosition with status := PositionStatus.FROZEN })]
        virtual_positions := [] })] }

/-- Witness for C10: unknown account gives 0, unknown instrument gives 0, and
a frozen-status position gives 0 despite positive available_volume. -/
theorem get_sellable_volume_spec_witness :
    get_sellable_volume sampleManagerFrozen "NOBODY" "000001" = 0 ∧
    get_sellable_volume sampleManagerFrozen "TEST001" "999999" = 0 ∧
    get_sellable_volume sampleManagerFrozen "TEST001" "000001" = 0 :=
  ⟨(get_sellable_volume_spec sampleManagerFrozen "NOBODY" "000001").1 (by decide),
   (get_sellable_volume_spec sampleManagerFrozen "TEST001" "999999").2.1
     { account_id := "TEST001"
       positions := [("000001", { samplePosition with status := PositionStatus.FROZEN })]
       virtual_positions := [] } (by decide) (by decide),
   by
    have h := (get_sellable_volume_spec sampleManagerFrozen "TEST001" "000001").2.2
      { account_id := "TEST001"
        positions := [("000001", { samplePosition with status := PositionStatus.FROZEN })]
        virtual_positions := [] }
      { samplePosition with status := PositionStatus.FROZEN } (by decide) (by decide)
    rw [h]
    decide⟩

/-- C3: immediately after every successful roll, the returned state satisfies
current_ledger = previous_ledger * adjustment_factor + adjustment_amount
(exact, since the embedding uses rational arithmetic). -/
theorem roll_recurrence_invariant (c : LedgerRollingCalculator)
    (a s n : String) (af : Option ℚ) (amt : ℚ) (td : String)
    (ev : Option (List AdjustmentEvent)) (today : String)
    (st : LedgerRollingState)
    (h : (roll c a s n af amt td ev today).1 = Except.ok st) :
    st.current_ledger =
      st.previous_ledger * st.adjustment_factor + st.adjustment_amount := by
  unfold roll at h
  by_cases ha : a = ""
  · rw [if_pos ha] at h
    exact absurd h (by simp)
  · rw [if_neg ha] at h
    by_cases hs : s = ""
    · rw [if_pos hs] at h
      exact absurd h (by simp)
    · rw [if_neg hs] at h
      simp only [Except.ok.injEq] at h
      subst h
      rfl

/-- The calculator after initialize_ledger with seed 1000 on day d1. -/
def ledgerAfterInit : LedgerRollingCalculator :=
  ( initialize_ledger emptyCalculator "ACC" "STK" "" 1000 "d1" "d1").2

/-- The state produced by the first roll (AF = 0.9, E = 0). -/
def stateAfterRoll1 : LedgerRollingState :=
  { stock_code := "STK", stock_name := "", account_id := "ACC"
    previous_ledger := 1000, current_ledger := 900
    adjustment_factor := 9/10, adjustment_amount := 0
    previous_date := "d1", current_date := "d2" }

/-- The calculator after the first roll. -/
def ledgerAfterRoll1 : LedgerRollingCalculator :=
  (roll ledgerAfterInit "ACC" "STK" "" (some (9/10)) 0 "d2" none "d2").2

/-- The state produced by the second roll (AF = 1.0, E = 50). -/
def stateAfterRoll2 : LedgerRollingState :=
  { stock_code := "STK", stock_name := "", account_id := "ACC"
    previous_ledger := 900, current_ledger := 950
    adjustment_factor := 1, adjustment_amount := 50
    previous_date := "d2", current_date := "d3" }

/-- Witness for C3: initialize_ledger with seed 1000 then roll(af = 0.9,
amount = 0) yields current_ledger 900, and a further roll(af = 1.0,
amount = 50) yields current_ledger 950; both satisfy the recurrence. -/
theorem roll_recurrence_invariant_witness :
    (roll ledgerAfterInit "ACC" "STK" "" (some (9/10)) 0 "d2" none "d2").1 =
      Except.ok stateAfterRoll1 ∧
    stateAfterRoll1.current_ledger = 900 ∧
    stateAfterRoll1.current_ledger =
      stateAfterRoll1.previous_ledger * stateAfterRoll1.adjustment_factor +
        stateAfterRoll1.adjustment_amount ∧
    (roll ledgerAfterRoll1 "ACC" "STK" "" (some 1) 50 "d3" none "d3").1 =
      Except.ok stateAfterRoll2 ∧
    stateAfterRoll2.current_ledger = 950 ∧
    stateAfterRoll2.current_ledger =
      stateAfterRoll2.previous_ledger * stateAfterRoll2.adjustment_factor +
        stateAfterRoll2.adjustment_amount := by
  have h1 : (roll ledgerAfterInit "ACC" "STK" "" (some (9/10)) 0 "d2" none "d2").1 =
      Except.ok stateAfterRoll1 := by
    simp only [ledgerAfterInit, initialize_ledger, emptyCalculator, state_key, roll,
      dictGet, dictSet, stateAfterRoll1]
    norm_num
    simp
  have h2 : (roll ledgerAfterRoll1 "ACC" "STK" "" (some 1) 50 "d3" none "d3").1 =
      Except.ok stateAfterRoll2 := by
    simp only [ledgerAfterRoll1, ledgerAfterInit, initialize_ledger, emptyCalculator,
      state_key, roll, dictGet, dictSet, stateAfterRoll2]
    norm_num
    simp
  refine ⟨h1, by norm_num [stateAfterRoll1],
    roll_recurrence_invariant ledgerAfterInit "ACC" "STK" "" (some (9/10)) 0 "d2" none
      "d2" stateAfterRoll1 h1,
    h2, by norm_num [stateAfterRoll2],
    roll_recurrence_invariant ledgerAfterRoll1 "ACC" "STK" "" (some 1) 50 "d3" none
      "d3" stateAfterRoll2 h2⟩

/-- C7: roll fails (raises ValueError in the source, modelled as Except.error)
exactly when account_id or stock_code is the empty string, and in that case
the calculator is unchanged (no state created or modified, no history entry
appended); with non-empty identifiers it always returns an updated state. -/
theorem roll_error_iff (c : LedgerRollingCalculator) (a s n : String)
    (af : Option ℚ) (amt : ℚ) (td : String) (ev : Option (List AdjustmentEvent))
    (today : String) :
    ((∃ e, (roll c a s n af amt td ev today).1 = Except.error e) ↔ (a = "" ∨ s = "")) ∧
    ((a = "" ∨ s = "") → (roll c a s n af amt td ev today).2 = c) ∧
    (¬ (a = "" ∨ s = "") → ∃ st, (roll c a s n af amt td ev today).1 = Except.ok st) := by
  by_cases ha : a = ""
  · refine ⟨?_, ?_, ?_⟩
    · simp [roll, ha]
    · intro _
      simp [roll, ha]
    · intro h
      exact absurd (Or.inl ha) h
  · by_cases hs : s = ""
    · refine ⟨?_, ?_, ?_⟩
      · simp [roll, ha, hs]
      · intro _
        simp [roll, ha, hs]
      · intro h
        exact absurd (Or.inr hs) h
    · refine ⟨?_, ?_, ?_⟩
      · simp [roll, ha, hs]
      · intro h
        rcases h with h | h
        · exact absurd h ha
        · exact absurd h hs
      · intro _
        simp [roll, ha, hs]

/-- Witness for C7: with an empty account_id, roll on the empty calculator
reports an error and leaves the calculator unchanged; with non-empty
identifiers it returns a state. -/
theorem roll_error_iff_witness :
    ("" = "" ∨ "STK" = "") ∧
    (roll emptyCalculator "" "STK" "" none 0 "d1" none "d1").2 = emptyCalculator ∧
    (∃ e, (roll emptyCalculator "" "STK" "" none 0 "d1" none "d1").1 =
      Except.error e) ∧
    (∃ st, (roll emptyCalculator "ACC" "STK" "" none 0 "d1" none "d1").1 =
      Except.ok st) :=
  ⟨Or.inl rfl,
   (roll_error_iff emptyCalculator "" "STK" "" none 0 "d1" none "d1").2.1 (Or.inl rfl),
   (roll_error_iff emptyCalculator "" "STK" "" none 0 "d1" none "d1").1.2 (Or.inl rfl),
   (roll_error_iff emptyCalculator "ACC" "STK" "" none 0 "d1" none "d1").2.2
     (by simp)⟩

/-- C5: for a RealPosition with nonnegative total_volume (data-model
invariant) and volume > 0, increase succeeds, re-bases cost_price to the
volume-weighted average computed from the pre-call total_volume, increments
total_volume and today_volume by volume, and leaves available_volume
unchanged; for volume ≤ 0 it fails with no mutation. -/
theorem increase_spec (p : RealPosition) (v : ℤ) (price : ℚ)
    (htot : 0 ≤ p.total_volume) :
    (0 < v →
      (RealPosition.increase p v price).1 = true ∧
      (RealPosition.increase p v price).2.cost_price =
        ((p.total_volume : ℚ) * p.cost_price + (v : ℚ) * price) /
          ((p.total_volume : ℚ) + (v : ℚ)) ∧
      (RealPosition.increase p v price).2.total_volume = p.total_volume + v ∧
      (RealPosition.increase p v price).2.today_volume = p.today_volume + v ∧
      (RealPosition.increase p v price).2.available_volume = p.available_volume) ∧
    (v ≤ 0 → RealPosition.increase p v price = (false, p)) := by
  constructor
  · intro hv
    have h1 : ¬ (v ≤ 0) := by omega
    have h2 : p.total_volume + v > 0 := by omega
    simp only [RealPosition.increase, RealPosition.cost_amount, if_neg h1]
    simp only [gt_iff_lt]
    rw [if_pos h2]
    refine ⟨rfl, ?_, rfl, rfl, rfl⟩
    push_cast
    ring_nf
  · intro hv
    simp only [RealPosition.increase, if_pos hv]

/-- Witness for C5: increasing the sample position (total 1000 at cost 10)
by 100 shares at price 21/2 moves the cost price to the weighted average
(1000*10 + 100*21/2) / 1100 = 1055/110, increments total and today volumes,
and leaves available_volume at 1000; a non-positive volume is rejected. -/
theorem increase_spec_witness :
    (RealPosition.increase samplePosition 100 (21/2)).1 = true ∧
    (RealPosition.increase samplePosition 100 (21/2)).2.cost_price =
      ((1000 : ℚ) * 10 + (100 : ℚ) * (21/2)) / ((1000 : ℚ) + (100 : ℚ)) ∧
    (RealPosition.increase samplePosition 100 (21/2)).2.total_volume = 1100 ∧
    (RealPosition.increase samplePosition 100 (21/2)).2.today_volume = 100 ∧
    (RealPosition.increase samplePosition 100 (21/2)).2.available_volume = 1000 ∧
    RealPosition.increase samplePosition 0 (21/2) = (false, samplePosition) := by
  have h := (increase_spec samplePosition 100 (21/2) (by decide)).1 (by decide)
  have h0 := (increase_spec samplePosition 0 (21/2) (by decide)).2 (by decide)
  exact ⟨h.1, h.2.1, h.2.2.1, h.2.2.2.1, h.2.2.2.2, h0⟩

/-- C6: for a RealPosition with nonnegative frozen_volume (data-model
invariant) and 0 < v ≤ available_volume, freeze(v) then unfreeze(v) both
return true, the final position equals the original exactly, and the
intermediate position differs only in the available/frozen split. -/
theorem freeze_unfreeze_roundtrip (p : RealPosition) (v : ℤ)
    (hfz : 0 ≤ p.frozen_volume) (h1 : 0 < v) (h2 : v ≤ p.available_volume) :
    (RealPosition.freeze p v).1 = true ∧
    (RealPosition.unfreeze (RealPosition.freeze p v).2 v).1 = true ∧
    (RealPosition.unfreeze (RealPosition.freeze p v).2 v).2 = p ∧
    (RealPosition.freeze p v).2.total_volume = p.total_volume ∧
    (RealPosition.freeze p v).2.today_volume = p.today_volume ∧
    (RealPosition.freeze p v).2.yesterday_volume = p.yesterday_volume ∧
    (RealPosition.freeze p v).2.cost_price = p.cost_price ∧
    (RealPosition.freeze p v).2.current_price = p.current_price ∧
    (RealPosition.freeze p v).2.status = p.status := by
  have hc1 : ¬ (v ≤ 0 ∨ v > p.available_volume) := by omega
  simp only [RealPosition.freeze, if_neg hc1]
  have hc2 : ¬ (v ≤ 0 ∨ v > p.frozen_volume + v) := by
    push_neg
    omega
  simp only [RealPosition.unfreeze, if_neg hc2]
  refine ⟨trivial, trivial, ?_, trivial, trivial, trivial, trivial, trivial, trivial⟩
  cases p
  simp only [RealPosition.mk.injEq, and_true, true_and]
  omega

/-- Witness for C6: freezing then unfreezing 200 shares of the sample
position restores it exactly, and the freeze leaves total_volume and
cost_price untouched. -/
theorem freeze_unfreeze_roundtrip_witness :
    (RealPosition.freeze samplePosition 200).1 = true ∧
    (RealPosition.unfreeze (RealPosition.freeze samplePosition 200).2 200).1 = true ∧
    (RealPosition.unfreeze (RealPosition.freeze samplePosition 200).2 200).2 =
      samplePosition ∧
    (RealPosition.freeze samplePosition 200).2.total_volume = 1000 ∧
    (RealPosition.freeze samplePosition 200).2.cost_price = 10 := by
  have h := freeze_unfreeze_roundtrip samplePosition 200 (by decide) (by decide)
    (by decide)
  refine ⟨h.1, h.2.1, h.2.2.1, ?_, ?_⟩
  · rw [h.2.2.2.1]
    rfl
  · rw [h.2.2.2.2.2.2.1]
    rfl

theorem open_close_all_eval (vp : VirtualPosition) (v : ℤ) (sp bp : ℚ)
    (hv : 0 < v) (h0 : vp.closed_volume = 0) :
    close_all (open_position vp v sp T0Type.SELL_FIRST) bp =
      ((sp - bp) * (v : ℚ),
       { vp with
         open_volume := v
         open_price := sp
         t0_type := T0Type.SELL_FIRST
         closed_volume := 0 + v
         close_price := bp
         profit_loss := vp.profit_loss + (sp - bp) * (v : ℚ)
         profit_rate := (vp.profit_loss + (sp - bp) * (v : ℚ)) / (sp * (v : ℚ)) * 100
         status := PositionStatus.CLOSED }) := by
  unfold close_all open_position close_partial
  simp only [VirtualPosition.remaining_volume, VirtualPosition.is_closed, h0, sub_zero]
  rw [if_neg (by omega : ¬ (v ≤ 0 ∨ v > v))]
  simp only [if_true, if_pos hv]
  rw [if_pos (show decide (v - (0 + v) ≤ 0) = true by
    simp only [decide_eq_true_eq]
    omega)]

theorem increase_total_volume (p : RealPosition) (v : ℤ) (price : ℚ) (hv : 0 < v) :
    (RealPosition.increase p v price).2.total_volume = p.total_volume + v := by
  simp only [RealPosition.increase, if_neg (by omega : ¬ v ≤ 0)]
  split
  · rfl
  · rfl

/-- C2: a successful execute_t0_sell_first with 0 < volume ≤ sellable_volume
leaves the RealPosition's total_volume unchanged and returns a fully closed
VirtualPosition with profit_loss = (sell_price - buy_price) * volume. -/
theorem sell_first_preserves_total (m : PositionManager) (a s pid : String)
    (v : ℤ) (sp bp : ℚ) (acc : AccountPosition) (pos : RealPosition)
    (hacc : dictGet a m.accounts = some acc)
    (hpos : dictGet s acc.positions = some pos)
    (hv0 : 0 < v) (hv : v ≤ RealPosition.sellable_volume pos) :
    ∃ (vp : VirtualPosition) (m' : PositionManager),
      execute_t0_sell_first m a s v sp bp pid = (some vp, m') ∧
      vp.is_closed = true ∧
      vp.status = PositionStatus.CLOSED ∧
      vp.profit_loss = (sp - bp) * (v : ℚ) ∧
      ∃ pos' : RealPosition, get_position m' a s = some pos' ∧
        pos'.total_volume = pos.total_volume := by
  have hnf : pos.status ≠ PositionStatus.FROZEN := by
    intro hf
    rw [RealPosition.sellable_volume, if_pos hf] at hv
    omega
  have hsv : RealPosition.sellable_volume pos = pos.available_volume := by
    rw [RealPosition.sellable_volume, if_neg hnf]
  have hav : v ≤ pos.available_volume := hsv ▸ hv
  have hred : RealPosition.reduce pos v =
      (true, { pos with
        total_volume := pos.total_volume - v
        available_volume := pos.available_volume - v }) := by
    rw [RealPosition.reduce, if_neg (by omega : ¬ (v ≤ 0 ∨ v > pos.available_volume))]
  simp only [execute_t0_sell_first, hacc, hpos]
  rw [if_neg (by omega : ¬ v > RealPosition.sellable_volume pos)]
  rw [hred]
  rw [open_close_all_eval (mkVirtualPosition ("T0_" ++ a ++ "_" ++ s ++ "_" ++ pid) s a)
    v sp bp hv0 rfl]
  refine ⟨_, _, rfl, ?_, rfl, ?_, ?_⟩
  · simp [VirtualPosition.is_closed, VirtualPosition.remaining_volume]
  · simp [mkVirtualPosition]
  · simp only [get_position, AccountPosition.get_position, dictGet_dictSet_self]
    refine ⟨_, rfl, ?_⟩
    rw [increase_total_volume _ v bp hv0]
    show pos.total_volume - v + v = pos.total_volume
    omega

/-- Projects the profit_loss out of an optional VirtualPosition (0 if none). -/
def profit_of (o : Option VirtualPosition) : ℚ :=
  match o with
  | some vp => vp.profit_loss
  | none => 0

/-- Projects the total_volume out of an optional RealPosition (0 if none). -/
def real_total_of (o : Option RealPosition) : ℤ :=
  match o with
  | some p => p.total_volume
  | none => 0

/-- A sample account owning the sample position. -/
def sampleAccount : AccountPosition :=
  { account_id := "TEST001"
    positions := [("000001", samplePosition)]
    virtual_positions := [] }

/-- A sample manager owning the sample account. -/
def sampleManager : PositionManager :=
  { accounts := [("TEST001", sampleAccount)] }

/-- Witness for C2: from RealPosition(total 1000, available 1000, cost 10),
execute_t0_sell_first(volume 500, sell 10.5, buy 10.0) returns a
VirtualPosition with profit_loss 250 and leaves total_volume at 1000. -/
theorem sell_first_preserves_total_witness :
    (0 : ℤ) < 500 ∧
    (500 : ℤ) ≤ RealPosition.sellable_volume samplePosition ∧
    profit_of (execute_t0_sell_first sampleManager "TEST001" "000001"
      500 (21/2) 10 "t").1 = 250 ∧
    real_total_of (get_position (execute_t0_sell_first sampleManager "TEST001" "000001"
      500 (21/2) 10 "t").2 "TEST001" "000001") = 1000 := by
  have h := sell_first_preserves_total sampleManager "TEST001" "000001" "t"
    500 (21/2) 10 sampleAccount samplePosition (by decide) (by decide)
    (by decide) (by decide)
  obtain ⟨vp, m', heq, hclosed, hstatus, hpl, pos', hlook, htot⟩ := h
  refine ⟨by decide, by decide, ?_, ?_⟩
  · rw [heq]
    show vp.profit_loss = 250
    rw [hpl]
    norm_num
  · rw [heq]
    show real_total_of (get_position m' "TEST001" "000001") = 1000
    rw [hlook]
    show pos'.total_volume = 1000
    rw [htot]
    rfl

/-- C1 (amended): execute_t0_sell_first returns None, with the manager left
unchanged, exactly when the account is unknown, the instrument is unknown to
that account, or the requested volume exceeds the position's sellable_volume;
execute_t0_buy_first returns None, with the manager left unchanged, exactly
when the account or instrument is unknown - it performs no volume check.
Otherwise each entry point returns the created VirtualPosition. -/
theorem t0_failure_conditions (m : PositionManager) (a s pid : String)
    (v : ℤ) (q1 q2 : ℚ) :
    ((execute_t0_sell_first m a s v q1 q2 pid).1 = none ↔
      dictGet a m.accounts = none ∨
      (∃ acc, dictGet a m.accounts = some acc ∧ dictGet s acc.positions = none) ∨
      (∃ acc pos, dictGet a m.accounts = some acc ∧
        dictGet s acc.positions = some pos ∧ RealPosition.sellable_volume pos < v)) ∧
    ((execute_t0_sell_first m a s v q1 q2 pid).1 = none →
      (execute_t0_sell_first m a s v q1 q2 pid).2 = m) ∧
    ((execute_t0_buy_first m a s v q1 q2 pid).1 = none ↔
      dictGet a m.accounts = none ∨
      (∃ acc, dictGet a m.accounts = some acc ∧ dictGet s acc.positions = none)) ∧
    ((execute_t0_buy_first m a s v q1 q2 pid).1 = none →
      (execute_t0_buy_first m a s v q1 q2 pid).2 = m) := by
  rcases hacc : dictGet a m.accounts with _ | acc
  · refine ⟨?_, ?_, ?_, ?_⟩
    · simp [execute_t0_sell_first, hacc]
    · intro _
      simp [execute_t0_sell_first, hacc]
    · simp [execute_t0_buy_first, hacc]
    · intro _
      simp [execute_t0_buy_first, hacc]
  · rcases hpos : dictGet s acc.positions with _ | pos
    · refine ⟨?_, ?_, ?_, ?_⟩
      · simp [execute_t0_sell_first, hacc, hpos]
      · intro _
        simp [execute_t0_sell_first, hacc, hpos]
      · simp [execute_t0_buy_first, hacc, hpos]
      · intro _
        simp [execute_t0_buy_first, hacc, hpos]
    · by_cases hv : v > RealPosition.sellable_volume pos
      · refine ⟨?_, ?_, ?_, ?_⟩
        · simp only [execute_t0_sell_first, hacc, hpos, if_pos hv]
          simp [hacc, hpos, hv]
        · intro _
          simp only [execute_t0_sell_first, hacc, hpos, if_pos hv]
        · simp [execute_t0_buy_first, hacc, hpos]
        · simp [execute_t0_buy_first, hacc, hpos]
      · refine ⟨?_, ?_, ?_, ?_⟩
        · simp only [execute_t0_sell_first, hacc, hpos, if_neg hv]
          simp [hacc, hpos]
          omega
        · intro hnone
          exact absurd hnone (by simp [execute_t0_sell_first, hacc, hpos, if_neg hv])
        · simp [execute_t0_buy_first, hacc, hpos]
        · simp [execute_t0_buy_first, hacc, hpos]

/-- The empty manager (fresh PositionManager constructor). -/
def emptyManager : PositionManager := { accounts := [] }

/-- Witness for C1 (amended): on the empty manager both entry points fail,
returning None and leaving the manager unchanged. -/
theorem t0_failure_conditions_witness :
    (execute_t0_sell_first emptyManager "A" "S" 1 1 1 "t").1 = none ∧
    (execute_t0_sell_first emptyManager "A" "S" 1 1 1 "t").2 = emptyManager ∧
    (execute_t0_buy_first emptyManager "A" "S" 1 1 1 "t").2 = emptyManager :=
  ⟨(t0_failure_conditions emptyManager "A" "S" "t" 1 1 1).1.mpr (Or.inl rfl),
   (t0_failure_conditions emptyManager "A" "S" "t" 1 1 1).2.1 (by decide),
   (t0_failure_conditions emptyManager "A" "S" "t" 1 1 1).2.2.2 (by decide)⟩

/-- A position with zero available volume, hence zero sellable volume. -/
def cxPosition : RealPosition :=
  { samplePosition with
    total_volume := 0
    available_volume := 0
    yesterday_volume := 0 }

/-- A manager holding only the zero-volume position. -/
def cxManager : PositionManager :=
  { accounts := [("TEST001",
      { account_id := "TEST001"
        positions := [("000001", cxPosition)]
        virtual_positions := [] })] }

/-- Counterexample to C1 as stated: requesting volume 100 with
sellable_volume 0, execute_t0_buy_first does NOT return None - the source
code performs no sellable-volume check on the buy-first path. -/
theorem buy_first_ignores_volume_counterexample :
    RealPosition.sellable_volume cxPosition < 100 ∧
    (execute_t0_buy_first cxManager "TEST001" "000001" 100 10 11 "t").1 ≠ none := by
  constructor
  · decide
  · simp [execute_t0_buy_first, dictGet, cxManager]
